import Mathlib

/-!
Shallow embedding of `dmcontent/converters.py` and `dmcontent/govuk_frontend.py`
from the digitalmarketplace-content-loader repository, together with proofs
about the embedded functions.

Python scalar values are modelled by the inductive type `Value`; a Python
float is represented by the exact decimal value it was parsed from, kept
as a numerator/denominator pair (every decimal literal this code parses
is such a value, and no claim depends on binary rounding).  A Python
function that can raise is modelled with `Except PyErr`; a raised
exception that no handler catches is an `Except.error`.  String
operations are carried out on the underlying character lists, which
matches Python's code-point view of `str`.
-/

deriving instance DecidableEq for Except

namespace DMContent

/-- The exact value of a parsed Python float, as numerator over
denominator (the denominator a power of ten). -/
structure PyFloat where
  num : Int
  den : Nat
deriving DecidableEq, Repr

/-- Python scalar values as they appear in this code base: strings, ints,
floats, booleans and None. -/
inductive Value where
  | VStr : String → Value
  | VInt : Int → Value
  | VFloat : PyFloat → Value
  | VBool : Bool → Value
  | VNone : Value
deriving DecidableEq, Repr

/-- Exceptions that can escape the embedded functions.  `attributeError`
models Python's `AttributeError`, raised when `.startswith`/`.endswith`
is looked up on a non-string value. -/
inductive PyErr where
  | attributeError
deriving DecidableEq, Repr

/-- Python truthiness of an optional string (`if question.get("hint")`,
`if prefix`): `None` and the empty string are falsy, every other string
is truthy. -/
def pyTruthyOptStr : Option String → Bool
  | some s => s != ""
  | none => false

/-- Lower-casing of one character, modelling Python's `str.lower` on the
ASCII range met by this code. -/
def pyLowerChar (c : Char) : Char :=
  if 65 ≤ c.toNat && c.toNat ≤ 90 then Char.ofNat (c.toNat + 32) else c

/-- Model of the Python string method `lower`. -/
def pyLower (s : String) : String := String.mk (s.data.map pyLowerChar)

/-- `convert_to_boolean` from `dmcontent/converters.py`: a string whose
lower-cased form is in the truthy list becomes `True`, one in the falsy
list becomes `False`, and anything else is returned unchanged. -/
def convert_to_boolean (value : Value) : Value :=
  match value with
  | .VStr s =>
    if pyLower s ∈ ["t", "true", "on", "yes", "1"] then .VBool true
    else if pyLower s ∈ ["f", "false", "off", "no", "0"] then .VBool false
    else .VStr s
  | v => v

/-- The whitespace characters stripped by Python's `int`/`float` string
parsing. -/
def pyIsSpace (c : Char) : Bool :=
  c = ' ' || c = '\t' || c = '\n' || c = '\r' || c = Char.ofNat 11 || c = Char.ofNat 12

/-- Removal of leading and trailing whitespace from a character list. -/
def pyStripSpace (l : List Char) : List Char :=
  ((l.dropWhile pyIsSpace).reverse.dropWhile pyIsSpace).reverse

/-- Value of a digit string read in base ten. -/
def digitsToNat (l : List Char) : Nat :=
  l.foldl (fun acc c => acc * 10 + (c.toNat - 48)) 0

/-- An optional single leading sign, split off from the rest. -/
def pySign (l : List Char) : Int × List Char :=
  match l with
  | '-' :: rest => (-1, rest)
  | '+' :: rest => (1, rest)
  | _ => (1, l)

/-- Model of the Python built-in `int` applied to a string (an external
collaborator of `convert_to_number`): surrounding whitespace is ignored,
an optional single sign is followed by one or more decimal digits;
anything else raises `ValueError`, modelled as `none`.  (Digit-group
underscores are not modelled; no claim depends on them.) -/
def pyIntParse (s : String) : Option Int :=
  let (sign, digits) := pySign (pyStripSpace s.data)
  if !digits.isEmpty && digits.all Char.isDigit then
    some (sign * (digitsToNat digits : Int))
  else none

/-- Split of a character list at the dots it holds. -/
def splitOnDot : List Char → List (List Char)
  | [] => [[]]
  | c :: cs =>
    if c = '.' then [] :: splitOnDot cs
    else match splitOnDot cs with
      | [] => [[c]]
      | h :: t => (c :: h) :: t

/-- Model of the Python built-in `float` applied to a string (an external
collaborator of `convert_to_number`), restricted to the plain decimal
forms this code meets: optional surrounding whitespace and sign, digits
with at most one dot and at least one digit overall.  The result is the
exact decimal value.  (Exponent, `inf` and `nan` forms are not modelled;
no claim depends on them.) -/
def pyFloatParse (s : String) : Option PyFloat :=
  let (sign, body) := pySign (pyStripSpace s.data)
  match splitOnDot body with
  | [ip] =>
    if !ip.isEmpty && ip.all Char.isDigit then
      some ⟨sign * (digitsToNat ip : Int), 1⟩
    else none
  | [ip, fp] =>
    if !(ip ++ fp).isEmpty && (ip ++ fp).all Char.isDigit then
      some ⟨sign * (digitsToNat (ip ++ fp) : Int), 10 ^ fp.length⟩
    else none
  | _ => none

/-- The statement `if prefix and value.startswith(prefix): value = value[len(prefix):]`
from `convert_to_number`.  When the guard `prefix` is truthy and the
value is not a string, the attribute lookup `value.startswith` raises
`AttributeError`, which no handler catches. -/
def stripPrefixStep (pre : Option String) (value : Value) : Except PyErr Value :=
  match pre with
  | none => .ok value
  | some p =>
    if p = "" then .ok value
    else match value with
      | .VStr s =>
        .ok (if p.data.isPrefixOf s.data then .VStr (String.mk (s.data.drop p.data.length))
          else .VStr s)
      | _ => .error .attributeError

/-- The statement `if suffix and value.endswith(suffix): value = value[:-len(suffix)]`
from `convert_to_number`, with the same `AttributeError` behaviour on
non-string values. -/
def stripSuffixStep (suf : Option String) (value : Value) : Except PyErr Value :=
  match suf with
  | none => .ok value
  | some q =>
    if q = "" then .ok value
    else match value with
      | .VStr s =>
        .ok (if q.data.isSuffixOf s.data then
            .VStr (String.mk (s.data.take (s.data.length - q.data.length)))
          else .VStr s)
      | _ => .error .attributeError

/-- The guarded parse `return float(value) if "." in value else int(value)`
with its `except (TypeError, ValueError): return value` handler.  For a
non-string value, `"." in value` raises `TypeError`, which the handler
catches, so the value comes back unchanged. -/
def parseStep (value : Value) : Value :=
  match value with
  | .VStr s =>
    if s.data.contains '.' then
      match pyFloatParse s with
      | some q => .VFloat q
      | none => .VStr s
    else
      match pyIntParse s with
      | some n => .VInt n
      | none => .VStr s
  | v => v

/-- `convert_to_number` from `dmcontent/converters.py`: strip one leading
occurrence of `pre` and one trailing occurrence of `suf` when given and
matching, then parse as float or int depending on whether the text holds
a dot, returning the (stripped) value itself when the parse fails.  The
keyword arguments `prefix`/`suffix` of the source are `pre`/`suf` here;
`none` models the default `None`. -/
def convert_to_number (value : Value) (pre suf : Option String) : Except PyErr Value :=
  match stripPrefixStep pre value with
  | .error e => .error e
  | .ok v1 =>
    match stripSuffixStep suf v1 with
    | .error e => .error e
    | .ok v2 => .ok (parseStep v2)

/-- The text that remains of a string value after the two stripping
statements of `convert_to_number` (on a string they never raise). -/
def strippedText (pre suf : Option String) (s : String) : String :=
  let s1 :=
    match pre with
    | none => s
    | some p =>
      if p = "" then s
      else if p.data.isPrefixOf s.data then String.mk (s.data.drop p.data.length)
      else s
  match suf with
  | none => s1
  | some q =>
    if q = "" then s1
    else if q.data.isSuffixOf s1.data then
      String.mk (s1.data.take (s1.data.length - q.data.length))
    else s1

theorem stripPrefixStep_str (pre : Option String) (s : String) :
    stripPrefixStep pre (Value.VStr s) =
      .ok (Value.VStr (match pre with
        | none => s
        | some p =>
          if p = "" then s
          else if p.data.isPrefixOf s.data then String.mk (s.data.drop p.data.length)
          else s)) := by
  rcases pre with _ | p
  · rfl
  · by_cases hp : p = ""
    · simp [stripPrefixStep, hp]
    · simp only [stripPrefixStep, hp, if_false]
      split <;> simp_all

theorem stripSuffixStep_str (suf : Option String) (s : String) :
    stripSuffixStep suf (Value.VStr s) =
      .ok (Value.VStr (match suf with
        | none => s
        | some q =>
          if q = "" then s
          else if q.data.isSuffixOf s.data then
            String.mk (s.data.take (s.data.length - q.data.length))
          else s)) := by
  rcases suf with _ | q
  · rfl
  · by_cases hq : q = ""
    · simp [stripSuffixStep, hq]
    · simp only [stripSuffixStep, hq, if_false]
      split <;> simp_all

/-- On a string input `convert_to_number` never raises: it parses exactly
the stripped text. -/
theorem convert_to_number_str (s : String) (pre suf : Option String) :
    convert_to_number (Value.VStr s) pre suf =
      .ok (parseStep (Value.VStr (strippedText pre suf s))) := by
  simp only [convert_to_number, stripPrefixStep_str, stripSuffixStep_str]
  rfl

/-- Character-level HTML escaping: the five markup-significant characters
become entities, every other character is kept. -/
def escChar (c : Char) : List Char :=
  if c = '&' then "&amp;".data
  else if c = '<' then "&lt;".data
  else if c = '>' then "&gt;".data
  else if c = Char.ofNat 34 then "&#34;".data
  else if c = Char.ofNat 39 then "&#39;".data
  else [c]

/-- Escaping of a character list, character by character. -/
def escList : List Char → List Char
  | [] => []
  | c :: cs => escChar c ++ escList cs

/-- Modelled from the spec: the external HTML-escaping collaborator
(`jinja2.escape`, not under src/), "an HTML-escaping function" through
which all user-supplied text passes before insertion into hint HTML. -/
def escape (s : String) : String := String.mk (escList s.data)

/-- Modelled from the spec: the result of the external error-formatting
collaborator (`dmutils.forms.errors.govuk_error`, not under src/), "a
structured message object with a known errorMessage field". -/
structure GovukErrorResult where
  errorMessage : String
deriving DecidableEq, Repr

/-- Modelled from the spec: the external error-formatting collaborator
itself, "taking an opaque stored error token and returning a structured
message object with a known errorMessage field".  Error tokens are kept
opaque as strings; only the presence of the produced `errorMessage`
matters to the claims. -/
def govuk_error (token : String) : GovukErrorResult := ⟨token⟩

/-- A content-loader `Question` as read by `govuk_frontend.py`: `id`,
`type`, prompt text `question` and `is_optional` are always present;
`question_advice` and `hint` are probed with the safe `.get` lookup and
may be absent. -/
structure Question where
  id : String
  type : String
  question : String
  is_optional : Bool
  question_advice : Option String
  hint : Option String
deriving DecidableEq, Repr

/-- The `label` parameter object built by `_params`. -/
structure GovukLabel where
  classes : String
  isPageHeading : Bool
  text : String
deriving DecidableEq, Repr

/-- The `hint` parameter object built by `_params`. -/
structure GovukHint where
  html : String
deriving DecidableEq, Repr

/-- The parameters dictionary built by `_params` (and extended by
`govuk_input`): keys `id`, `name` and `label` are always set, `hint`,
`value`, `errorMessage` and `classes` are set conditionally. -/
structure Params where
  id : String
  name : String
  label : GovukLabel
  hint : Option GovukHint
  value : Option Value
  errorMessage : Option String
  classes : Option String
deriving DecidableEq, Repr

/-- A submitted-data map (Python dict keyed by question id); modelled as
an association list with unique keys. -/
abbrev DataMap := List (String × Value)

/-- A validation-error map from question id to an opaque error token. -/
abbrev ErrorMap := List (String × String)

/-- The hint-building block of `_params` (govuk_frontend.py lines
125-141): the question advice, when truthy, wrapped in the
`app-hint--text` div, a line break between advice and hint when both are
truthy, then the escaped hint when truthy. -/
def hint_html (question : Question) : String :=
  (if pyTruthyOptStr question.question_advice then
    "<div class=\"app-hint--text\">\n" ++ escape (question.question_advice.getD "")
      ++ "\n</div>" ++ (if pyTruthyOptStr question.hint then "\n" else "")
  else "")
  ++ (if pyTruthyOptStr question.hint then escape (question.hint.getD "") else "")

/-- `_params` from `dmcontent/govuk_frontend.py`: the common govuk-frontend
parameters for a question.  Python dict truthiness (`if data and ...`,
`if errors and ...`) makes an absent or empty map skip its key. -/
def _params (question : Question) (data : Option DataMap) (errors : Option ErrorMap) :
    Params :=
  let label_text :=
    question.question ++ (if question.is_optional then " (optional)" else "")
  { id := "input-" ++ question.id
    name := question.id
    label := { classes := "govuk-label--l", isPageHeading := true, text := label_text }
    hint := if hint_html question = "" then none else some ⟨hint_html question⟩
    value :=
      match data with
      | some d => if d.isEmpty then none else d.lookup question.id
      | none => none
    errorMessage :=
      match errors with
      | some e =>
        if e.isEmpty then none
        else (e.lookup question.id).map (fun t => (govuk_error t).errorMessage)
      | none => none
    classes := none }

/-- `govuk_input` from `dmcontent/govuk_frontend.py`: the common
parameters with the strategy-specific styling class added. -/
def govuk_input (question : Question) (data : Option DataMap) (errors : Option ErrorMap) :
    Params :=
  let params := _params question data errors
  { params with classes := some "app-text-input--height-compatible" }

/-- `from_question` from `dmcontent/govuk_frontend.py`: dispatch on
`question.type`; only the "text" variant has a strategy, every other
type yields `none`. -/
def from_question (question : Question) (data : Option DataMap) (errors : Option ErrorMap) :
    Option (String × Params) :=
  if question.type = "text" then some ("govukInput", govuk_input question data errors)
  else none

/-! ## Shared helper lemmas -/

theorem parseStep_nonstr (v : Value) (hv : ∀ s, v ≠ Value.VStr s) : parseStep v = v := by
  cases v with
  | VStr s => exact absurd rfl (hv s)
  | VInt n => rfl
  | VFloat f => rfl
  | VBool b => rfl
  | VNone => rfl

theorem append_left_ne_empty (a b : String) (h : a ≠ "") : a ++ b ≠ "" := by
  intro hc
  apply h
  apply String.ext
  have hd := congrArg String.data hc
  rw [String.data_append] at hd
  exact (List.append_eq_nil.mp hd).1

theorem escChar_ne_nil (c : Char) : escChar c ≠ [] := by
  unfold escChar
  split_ifs <;> simp

theorem escList_cons_ne_nil (c : Char) (cs : List Char) : escList (c :: cs) ≠ [] := by
  simp only [escList]
  intro hc
  exact escChar_ne_nil c (List.append_eq_nil.mp hc).1

theorem escape_ne_empty (s : String) (h : s ≠ "") : escape s ≠ "" := by
  cases s with
  | mk l =>
    cases l with
    | nil => exact absurd rfl h
    | cons c cs =>
      intro hc
      have hd := congrArg String.data hc
      exact escList_cons_ne_nil c cs hd

theorem string_empty_append (s : String) : "" ++ s = s := by
  apply String.ext
  rw [String.data_append]
  show ([] : List Char) ++ s.data = s.data
  simp

theorem pyTruthyOptStr_iff (o : Option String) :
    pyTruthyOptStr o = true ↔ ∃ s, o = some s ∧ s ≠ "" := by
  cases o with
  | none => simp [pyTruthyOptStr]
  | some s => simp [pyTruthyOptStr]

theorem params_hint_def (q : Question) (d : Option DataMap) (e : Option ErrorMap) :
    (_params q d e).hint =
      if hint_html q = "" then none else some ⟨hint_html q⟩ := rfl

theorem params_value_def (q : Question) (d : Option DataMap) (e : Option ErrorMap) :
    (_params q d e).value =
      match d with
      | some m => if m.isEmpty then none else m.lookup q.id
      | none => none := rfl

theorem params_errorMessage_def (q : Question) (d : Option DataMap) (e : Option ErrorMap) :
    (_params q d e).errorMessage =
      match e with
      | some m =>
        if m.isEmpty then none
        else (m.lookup q.id).map (fun t => (govuk_error t).errorMessage)
      | none => none := rfl

theorem parseStep_str_eq (t : String) :
    parseStep (Value.VStr t) =
      if (t.data.contains '.') = true then
        match pyFloatParse t with
        | some q => Value.VFloat q
        | none => Value.VStr t
      else
        match pyIntParse t with
        | some n => Value.VInt n
        | none => Value.VStr t := rfl

theorem hint_html_ne_of_advice (q : Question)
    (ha : pyTruthyOptStr q.question_advice = true) : hint_html q ≠ "" := by
  simp only [hint_html, ha, if_true]
  apply append_left_ne_empty
  apply append_left_ne_empty
  apply append_left_ne_empty
  apply append_left_ne_empty
  decide

theorem hint_html_ne_of_hint (q : Question)
    (hh : pyTruthyOptStr q.hint = true) : hint_html q ≠ "" := by
  by_cases ha : pyTruthyOptStr q.question_advice = true
  · exact hint_html_ne_of_advice q ha
  · have ha' : pyTruthyOptStr q.question_advice = false := by
      simpa using ha
    obtain ⟨s, hs, hs'⟩ := (pyTruthyOptStr_iff _).mp hh
    simp only [hint_html, ha', hh, if_true, Bool.false_eq_true, if_false]
    rw [string_empty_append, hs]
    exact escape_ne_empty s hs'

/-! ## The claims -/

/-- C1 counterexample: with a non-textual input and a non-empty prefix
configured, `convert_to_number` does not skip the stripping step and does
not return the input unchanged: attempting `value.startswith` on the
integer raises `AttributeError`. -/
theorem convert_to_number_nontextual_counterexample :
    convert_to_number (Value.VInt 0) (some "£") none =
      .error .attributeError := by decide

/-- C1 (amended): for every input value, `convert_to_number` returns
normally when the prefix and suffix are both omitted or empty, and then a
non-textual input comes back unchanged; but when a non-empty prefix or
suffix is supplied together with a non-textual input, the stripping step
is attempted on the non-textual value and the function raises
`AttributeError` rather than skipping the step. -/
theorem convert_to_number_nontextual (v : Value) (hv : ∀ s, v ≠ Value.VStr s) :
    (∀ pre suf : Option String, (pre = none ∨ pre = some "") →
      (suf = none ∨ suf = some "") → convert_to_number v pre suf = .ok v)
  ∧ (∀ (p : String) (suf : Option String), p ≠ "" →
      convert_to_number v (some p) suf = .error .attributeError)
  ∧ (∀ (pre : Option String) (q : String), (pre = none ∨ pre = some "") → q ≠ "" →
      convert_to_number v pre (some q) = .error .attributeError) := by
  refine ⟨?_, ?_, ?_⟩
  · rintro pre suf (rfl | rfl) (rfl | rfl) <;>
      simp [convert_to_number, stripPrefixStep, stripSuffixStep, parseStep_nonstr v hv]
  · intro p suf hp
    cases v with
    | VStr s => exact absurd rfl (hv s)
    | VInt n => simp [convert_to_number, stripPrefixStep, hp]
    | VFloat f => simp [convert_to_number, stripPrefixStep, hp]
    | VBool b => simp [convert_to_number, stripPrefixStep, hp]
    | VNone => simp [convert_to_number, stripPrefixStep, hp]
  · rintro pre q (rfl | rfl) hq <;>
    · cases v with
      | VStr s => exact absurd rfl (hv s)
      | VInt n => simp [convert_to_number, stripPrefixStep, stripSuffixStep, hq]
      | VFloat f => simp [convert_to_number, stripPrefixStep, stripSuffixStep, hq]
      | VBool b => simp [convert_to_number, stripPrefixStep, stripSuffixStep, hq]
      | VNone => simp [convert_to_number, stripPrefixStep, stripSuffixStep, hq]

/-- C1 witness: at the concrete non-textual input `0`, the function
returns the input unchanged without prefix/suffix, and raises when a
non-empty prefix is configured. -/
theorem convert_to_number_nontextual_witness :
    convert_to_number (Value.VInt 0) none none = .ok (Value.VInt 0)
  ∧ convert_to_number (Value.VInt 0) (some "kg") none = .error .attributeError := by
  have h := convert_to_number_nontextual (Value.VInt 0) (fun s hs => Value.noConfusion hs)
  exact ⟨h.1 none none (Or.inl rfl) (Or.inl rfl), h.2.1 "kg" none (by decide)⟩

/-- C2 counterexample: `convert_to_number("abckg", suffix="kg")` returns
the stripped remainder `"abc"`, not the original unmodified input
`"abckg"`. -/
theorem convert_to_number_stripped_counterexample :
    convert_to_number (Value.VStr "abckg") none (some "kg") = .ok (Value.VStr "abc")
  ∧ Value.VStr "abc" ≠ Value.VStr "abckg" := by
  constructor
  · decide
  · decide

/-- C2 (amended): for every textual input and any prefix/suffix, if the
(possibly stripped) text fails to parse as a number, `convert_to_number`
returns the stripped remainder — the input after prefix/suffix removal —
which equals the original input only when no stripping occurred. -/
theorem convert_to_number_parse_failure (s : String) (pre suf : Option String)
    (hf : pyFloatParse (strippedText pre suf s) = none)
    (hi : pyIntParse (strippedText pre suf s) = none) :
    convert_to_number (Value.VStr s) pre suf =
      .ok (Value.VStr (strippedText pre suf s)) := by
  by_cases hc : ((strippedText pre suf s).data.contains '.') = true
  · rw [convert_to_number_str, parseStep_str_eq, hc, hf]
    rfl
  · have hc' : ((strippedText pre suf s).data.contains '.') = false := by
      simpa using hc
    rw [convert_to_number_str, parseStep_str_eq, hc', hi]
    rfl

/-- C2 witness: at the concrete input `"abckg"` with suffix `"kg"`, the
parse of the stripped text fails and the stripped remainder comes back. -/
theorem convert_to_number_parse_failure_witness :
    convert_to_number (Value.VStr "abckg") none (some "kg") =
      .ok (Value.VStr (strippedText none (some "kg") "abckg")) :=
  convert_to_number_parse_failure "abckg" none (some "kg") (by decide) (by decide)

/-- C3: `from_question` returns the pair `("govukInput", parameters)`
exactly when `question.type` is `"text"`, and `none` for every other type
value; being a total function of the embedding, it never raises. -/
theorem from_question_dispatch (q : Question) (d : Option DataMap) (e : Option ErrorMap) :
    (q.type = "text" →
      from_question q d e = some ("govukInput", govuk_input q d e))
  ∧ (q.type ≠ "text" → from_question q d e = none) :=
  ⟨fun h => by simp [from_question, h], fun h => by simp [from_question, h]⟩

/-- C3 witness: a `"text"` question yields the pair, a `"checkbox"`
question yields absence. -/
theorem from_question_dispatch_witness :
    from_question ⟨"q1", "text", "Prompt", false, none, none⟩ none none =
      some ("govukInput", govuk_input ⟨"q1", "text", "Prompt", false, none, none⟩ none none)
  ∧ from_question ⟨"q1", "checkbox", "Prompt", false, none, none⟩ none none = none :=
  ⟨(from_question_dispatch ⟨"q1", "text", "Prompt", false, none, none⟩ none none).1 rfl,
   (from_question_dispatch ⟨"q1", "checkbox", "Prompt", false, none, none⟩ none none).2
     (by decide)⟩

/-- C4: the output parameters contain `hint` if and only if at least one
of the question's `question_advice` or `hint` fields is present and
non-empty; when neither is, the `hint` key is absent. -/
theorem params_hint_iff (q : Question) (d : Option DataMap) (e : Option ErrorMap) :
    (_params q d e).hint.isSome = true ↔
      ((∃ s, q.question_advice = some s ∧ s ≠ "") ∨ (∃ s, q.hint = some s ∧ s ≠ "")) := by
  have h1 : (_params q d e).hint.isSome = true ↔ ¬ hint_html q = "" := by
    rw [params_hint_def]
    by_cases h : hint_html q = "" <;> simp [h]
  rw [h1]
  constructor
  · intro hne
    by_cases ha : pyTruthyOptStr q.question_advice = true
    · exact Or.inl ((pyTruthyOptStr_iff _).mp ha)
    · by_cases hh : pyTruthyOptStr q.hint = true
      · exact Or.inr ((pyTruthyOptStr_iff _).mp hh)
      · exfalso
        apply hne
        have ha' : pyTruthyOptStr q.question_advice = false := by simpa using ha
        have hh' : pyTruthyOptStr q.hint = false := by simpa using hh
        simp only [hint_html, ha', hh', Bool.false_eq_true, if_false]
        rfl
  · rintro (hadv | hh)
    · exact hint_html_ne_of_advice q ((pyTruthyOptStr_iff _).mpr hadv)
    · exact hint_html_ne_of_hint q ((pyTruthyOptStr_iff _).mpr hh)

/-- C4 witness: with non-empty advice the hint key is set; with neither
field the key is absent. -/
theorem params_hint_iff_witness :
    (_params ⟨"q1", "text", "Prompt", false, some "Advice", none⟩ none none).hint.isSome = true :=
  (params_hint_iff ⟨"q1", "text", "Prompt", false, some "Advice", none⟩ none none).mpr
    (Or.inl ⟨"Advice", rfl, by decide⟩)

/-- C5: when both `question_advice` and `hint` are present and non-empty,
the built hint HTML is the escaped advice wrapped in the
`app-hint--text` div, then exactly one line break, then the escaped hint
text, with nothing else between the two fragments. -/
theorem params_hint_both (q : Question) (d : Option DataMap) (e : Option ErrorMap)
    (a b : String) (ha : q.question_advice = some a) (ha' : a ≠ "")
    (hb : q.hint = some b) (hb' : b ≠ "") :
    (_params q d e).hint =
      some ⟨"<div class=\"app-hint--text\">\n" ++ escape a ++ "\n</div>"
        ++ "\n" ++ escape b⟩ := by
  have hta : pyTruthyOptStr q.question_advice = true :=
    (pyTruthyOptStr_iff _).mpr ⟨a, ha, ha'⟩
  have htb : pyTruthyOptStr q.hint = true :=
    (pyTruthyOptStr_iff _).mpr ⟨b, hb, hb'⟩
  have hmain : hint_html q =
      "<div class=\"app-hint--text\">\n" ++ escape a ++ "\n</div>" ++ "\n" ++ escape b := by
    simp only [hint_html, hta, htb, if_true]
    simp only [ha, hb, Option.getD_some]
  have hne : ("<div class=\"app-hint--text\">\n" ++ escape a ++ "\n</div>"
      ++ "\n" ++ escape b : String) ≠ "" := by
    apply append_left_ne_empty
    apply append_left_ne_empty
    apply append_left_ne_empty
    apply append_left_ne_empty
    decide
  rw [params_hint_def, hmain, if_neg hne]

/-- C5 witness: the hint HTML at a concrete question carrying both
advice and hint. -/
theorem params_hint_both_witness :
    (_params ⟨"q1", "text", "Prompt", false, some "Advice", some "Help"⟩ none none).hint =
      some ⟨"<div class=\"app-hint--text\">\n" ++ escape "Advice" ++ "\n</div>"
        ++ "\n" ++ escape "Help"⟩ :=
  params_hint_both ⟨"q1", "text", "Prompt", false, some "Advice", some "Help"⟩ none none
    "Advice" "Help" rfl (by decide) rfl (by decide)

/-- C6: `value` is present iff a data map was supplied and holds the
question's id, and then equals that entry untransformed; `errorMessage`
is present iff an error map was supplied and holds the question's id. -/
theorem params_value_errorMessage (q : Question) (d : Option DataMap) (e : Option ErrorMap) :
    ((_params q d e).value.isSome = true ↔ ∃ m v, d = some m ∧ m.lookup q.id = some v)
  ∧ (∀ (m : DataMap) (v : Value), d = some m → m.lookup q.id = some v →
      (_params q d e).value = some v)
  ∧ ((_params q d e).errorMessage.isSome = true ↔
      ∃ m t, e = some m ∧ m.lookup q.id = some t) := by
  refine ⟨?_, ?_, ?_⟩
  · rw [params_value_def]
    cases d with
    | none => simp
    | some m =>
      cases m with
      | nil => simp
      | cons x xs => simp [Option.isSome_iff_exists]
  · intro m v hm hv
    subst hm
    rw [params_value_def]
    cases m with
    | nil => simp at hv
    | cons x xs => simp [hv]
  · rw [params_errorMessage_def]
    cases e with
    | none => simp
    | some m =>
      cases m with
      | nil => simp
      | cons x xs => simp [Option.isSome_iff_exists]

/-- C6 witness: a data map carrying the question's id makes `value` that
entry; with no maps both keys are absent. -/
theorem params_value_errorMessage_witness :
    (_params ⟨"q1", "text", "Prompt", false, none, none⟩
        (some [("q1", Value.VStr "ans")]) none).value = some (Value.VStr "ans") :=
  (params_value_errorMessage ⟨"q1", "text", "Prompt", false, none, none⟩
      (some [("q1", Value.VStr "ans")]) none).2.1 [("q1", Value.VStr "ans")]
    (Value.VStr "ans") rfl (by decide)

/-- C7: `convert_to_boolean` maps a string whose lower-cased form is in
`{t, true, on, yes, 1}` to `True`, one whose lower-cased form is in
`{f, false, off, no, 0}` to `False`, and returns every other value
unchanged; being a total function of the embedding, it never raises. -/
theorem convert_to_boolean_cases :
    (∀ s : String, pyLower s ∈ ["t", "true", "on", "yes", "1"] →
      convert_to_boolean (Value.VStr s) = Value.VBool true)
  ∧ (∀ s : String, pyLower s ∈ ["f", "false", "off", "no", "0"] →
      convert_to_boolean (Value.VStr s) = Value.VBool false)
  ∧ (∀ s : String, pyLower s ∉ ["t", "true", "on", "yes", "1"] →
      pyLower s ∉ ["f", "false", "off", "no", "0"] →
      convert_to_boolean (Value.VStr s) = Value.VStr s)
  ∧ (∀ v : Value, (∀ s, v ≠ Value.VStr s) → convert_to_boolean v = v) := by
  refine ⟨?_, ?_, ?_, ?_⟩
  · intro s h
    simp [convert_to_boolean, h]
  · intro s h
    simp only [List.mem_cons, List.not_mem_nil, or_false] at h
    rcases h with h1 | h1 | h1 | h1 | h1 <;> simp [convert_to_boolean, h1]
  · intro s h1 h2
    simp [convert_to_boolean, h1, h2]
  · intro v hv
    cases v with
    | VStr s => exact absurd rfl (hv s)
    | VInt n => rfl
    | VFloat f => rfl
    | VBool b => rfl
    | VNone => rfl

/-- C7 witness: concrete inputs of each kind, letter casing included. -/
theorem convert_to_boolean_cases_witness :
    convert_to_boolean (Value.VStr "TRUE") = Value.VBool true
  ∧ convert_to_boolean (Value.VStr "Off") = Value.VBool false
  ∧ convert_to_boolean (Value.VStr "falsey") = Value.VStr "falsey"
  ∧ convert_to_boolean (Value.VInt 0) = Value.VInt 0 :=
  ⟨convert_to_boolean_cases.1 "TRUE" (by decide),
   convert_to_boolean_cases.2.1 "Off" (by decide),
   convert_to_boolean_cases.2.2.1 "falsey" (by decide) (by decide),
   convert_to_boolean_cases.2.2.2 (Value.VInt 0) (fun s hs => Value.noConfusion hs)⟩

/-- C8: when the (possibly stripped) text holds a decimal point and
parses as a float, the result is a float; when it holds no decimal point
and parses as an integer, the result is that integer. -/
theorem convert_to_number_parse_kinds (s : String) (pre suf : Option String) :
    (∀ q : PyFloat, ((strippedText pre suf s).data.contains '.') = true →
      pyFloatParse (strippedText pre suf s) = some q →
      convert_to_number (Value.VStr s) pre suf = .ok (Value.VFloat q))
  ∧ (∀ n : Int, ((strippedText pre suf s).data.contains '.') = false →
      pyIntParse (strippedText pre suf s) = some n →
      convert_to_number (Value.VStr s) pre suf = .ok (Value.VInt n)) := by
  constructor
  · intro q hdot hp
    rw [convert_to_number_str, parseStep_str_eq, hdot, hp]
    rfl
  · intro n hdot hp
    rw [convert_to_number_str, parseStep_str_eq, hdot, hp]
    rfl

/-- C8 witness: `"0.99"` parses to the float value 99/100, `"99999"` to
the integer 99999. -/
theorem convert_to_number_parse_kinds_witness :
    convert_to_number (Value.VStr "0.99") none none = .ok (Value.VFloat ⟨99, 100⟩)
  ∧ convert_to_number (Value.VStr "99999") none none = .ok (Value.VInt 99999) :=
  ⟨(convert_to_number_parse_kinds "0.99" none none).1 ⟨99, 100⟩ (by decide) (by decide),
   (convert_to_number_parse_kinds "99999" none none).2 99999 (by decide) (by decide)⟩

/-- C9: `convert_to_number` strips exactly one leading occurrence of the
prefix and one trailing occurrence of the suffix before parsing:
`convert_to_number("£100", prefix="£")` is the integer 100,
`convert_to_number("100kg", suffix="kg")` is the integer 100, and a
non-numeric remainder is returned stripped:
`convert_to_number("abckg", suffix="kg")` is `"abc"`. -/
theorem convert_to_number_affix_examples :
    convert_to_number (Value.VStr "£100") (some "£") none = .ok (Value.VInt 100)
  ∧ convert_to_number (Value.VStr "100kg") none (some "kg") = .ok (Value.VInt 100)
  ∧ convert_to_number (Value.VStr "abckg") none (some "kg") = .ok (Value.VStr "abc")
  ∧ (∀ (s p : String), p ≠ "" → p.data.isPrefixOf s.data = true →
      convert_to_number (Value.VStr s) (some p) none =
        convert_to_number (Value.VStr (String.mk (s.data.drop p.data.length))) none none)
  ∧ (∀ (s q : String), q ≠ "" → q.data.isSuffixOf s.data = true →
      convert_to_number (Value.VStr s) none (some q) =
        convert_to_number
          (Value.VStr (String.mk (s.data.take (s.data.length - q.data.length)))) none none) := by
  refine ⟨by decide, by decide, by decide, ?_, ?_⟩
  · intro s p hp hpre
    rw [convert_to_number_str, convert_to_number_str]
    simp [strippedText, hp, hpre]
  · intro s q hq hsuf
    rw [convert_to_number_str, convert_to_number_str]
    simp [strippedText, hq, hsuf]

/-- C9 witness: stripping one `"£"` from `"££100"` leaves `"£100"`, so
both calls agree there. -/
theorem convert_to_number_affix_examples_witness :
    convert_to_number (Value.VStr "££100") (some "£") none =
      convert_to_number (Value.VStr (String.mk ("££100".data.drop "£".data.length))) none none :=
  convert_to_number_affix_examples.2.2.2.1 "££100" "£" (by decide) (by decide)

/-- C10: an empty-string prefix or suffix is falsy, so no stripping
occurs and the call behaves exactly as with the argument omitted. -/
theorem convert_to_number_empty_affix (v : Value) (pre suf : Option String) :
    convert_to_number v (some "") suf = convert_to_number v none suf
  ∧ convert_to_number v pre (some "") = convert_to_number v pre none := by
  constructor
  · have h1 : stripPrefixStep (some "") v = stripPrefixStep none v := by
      simp [stripPrefixStep]
    simp only [convert_to_number, h1]
  · cases hp : stripPrefixStep pre v with
    | error e => simp only [convert_to_number, hp]
    | ok v1 =>
      have h2 : stripSuffixStep (some "") v1 = stripSuffixStep none v1 := by
        simp [stripSuffixStep]
      simp only [convert_to_number, hp, h2]

/-- C10 witness: the empty-prefix call agrees with the plain call at a
concrete input. -/
theorem convert_to_number_empty_affix_witness :
    convert_to_number (Value.VStr "7") (some "") none =
      convert_to_number (Value.VStr "7") none none :=
  (convert_to_number_empty_affix (Value.VStr "7") none none).1

end DMContent
